import Mathlib

/-!
Verification of the size-estimation engine of `vxrail_size_estimator.py`.

The estimation core is the pure function `calculate_estimate`, together with
the per-VM dispatch in `get_vm_storage_info` and the constant table
`ORGANIC_FACTORS`.  Sizes and ratios are embedded as rationals; Python
float rounding `round(x, n)` is embedded as round-half-to-even at `n`
decimal places.
-/

/-- Round half to even on rationals, the idealization of Python builtin
`round` on a real value (banker rounding). -/
def roundHalfEven (q : ℚ) : ℤ :=
  let f : ℤ := q.floor
  let frac : ℚ := q - f
  if frac < 1/2 then f
  else if 1/2 < frac then f + 1
  else if f % 2 = 0 then f else f + 1

/-- Python `round(x, 2)`. -/
def round2 (q : ℚ) : ℚ := (roundHalfEven (q * 100) : ℚ) / 100

/-- Python `round(x, 1)`. -/
def round1 (q : ℚ) : ℚ := (roundHalfEven (q * 10) : ℚ) / 10

-- The `ORGANIC_FACTORS` constant table of the source (module-level dict).
namespace ORGANIC_FACTORS

def trim_unmap_not_enabled : ℚ := 85/100

def dedup_expansion_low : ℚ := 12/10

def dedup_expansion_medium : ℚ := 14/10

def dedup_expansion_high : ℚ := 16/10

def compression_expansion : ℚ := 125/100

def vm_swap_overhead : ℚ := 95/100

def snapshot_overhead : ℚ := 90/100

end ORGANIC_FACTORS

/-- The `RAID_OVERHEAD` constant table of the source. -/
def RAID_OVERHEAD : List (String × ℚ) :=
  [("RAID-1 (FTT=1)", 2), ("RAID-1 (FTT=2)", 3), ("RAID-1 (FTT=3)", 4),
   ("RAID-5 (FTT=1)", 133/100), ("RAID-6 (FTT=2)", 15/10), ("None", 1)]

/-- The `VSANConfig` dataclass: detected vSAN cluster configuration.
Field defaults follow the source. -/
structure VSANConfig where
  cluster_name : String
  is_vsan : Bool := false
  is_vxrail : Bool := false
  raid_policy : String := "RAID-1 (FTT=1)"
  raid_overhead : ℚ := 2
  dedup_enabled : Bool := false
  compression_enabled : Bool := false
  dedup_ratio : ℚ := 1
  compression_ratio : ℚ := 1
  trim_unmap_enabled : Bool := true
  primary_capacity_gb : ℚ := 0
  overhead_capacity_gb : ℚ := 0
  total_capacity_gb : ℚ := 0
  used_capacity_gb : ℚ := 0
deriving DecidableEq, Repr

/-- One entry of the `notes_parts` list built by `calculate_estimate`;
the numeric payloads are the values interpolated into the note strings. -/
inductive NotePart where
  | primaryData (raid_overhead : ℚ)
  | trimUnmapAdj
  | dedupExpand (expansion : ℚ)
  | compressExpand (expansion : ℚ)
  | snapshotConsolidation
deriving DecidableEq, Repr

/-- The tuple returned by `calculate_estimate`:
`(logical_gb, estimated_gb, change_pct, notes)`. -/
structure EstimateResult where
  logical_gb : ℚ
  estimated_gb : ℚ
  change_pct : ℚ
  notes : List NotePart
deriving DecidableEq, Repr

/-- The dedup `expansion` branch of `calculate_estimate` (source lines
381-386): the measured ratio when above 1.0, else the medium heuristic. -/
def dedupExpansionFactor (config : VSANConfig) : ℚ :=
  if config.dedup_ratio > 1 then config.dedup_ratio
  else ORGANIC_FACTORS.dedup_expansion_medium

/-- The compression `expansion` branch of `calculate_estimate` (source
lines 392-395). -/
def compressionExpansionFactor (config : VSANConfig) : ℚ :=
  if config.compression_ratio > 1 then config.compression_ratio
  else ORGANIC_FACTORS.compression_expansion

/-- `calculate_estimate(used_gb, has_snapshots, config)` (source lines
343-414), translated let-for-statement. -/
def calculate_estimate (used_gb : ℚ) (has_snapshots : Bool)
    (config : VSANConfig) : EstimateResult :=
  let notes_parts : List NotePart := []
  -- Step 1: start with reported used size
  let size := used_gb
  -- Step 2: remove RAID overhead to get logical/primary data
  let logical_size := size / config.raid_overhead
  let notes_parts := notes_parts ++ [NotePart.primaryData config.raid_overhead]
  -- Step 3: TRIM/UNMAP adjustment
  let logical_size :=
    if !config.trim_unmap_enabled then
      logical_size * ORGANIC_FACTORS.trim_unmap_not_enabled
    else logical_size
  let notes_parts :=
    if !config.trim_unmap_enabled then notes_parts ++ [NotePart.trimUnmapAdj]
    else notes_parts
  let logical_gb := logical_size
  -- Step 4: migration size (data expansion factors)
  let estimated_size := logical_size
  let estimated_size :=
    if config.dedup_enabled then estimated_size * dedupExpansionFactor config
    else estimated_size
  let notes_parts :=
    if config.dedup_enabled then
      notes_parts ++ [NotePart.dedupExpand (dedupExpansionFactor config)]
    else notes_parts
  let estimated_size :=
    if config.compression_enabled then
      estimated_size * compressionExpansionFactor config
    else estimated_size
  let notes_parts :=
    if config.compression_enabled then
      notes_parts ++ [NotePart.compressExpand (compressionExpansionFactor config)]
    else notes_parts
  -- Step 5: VM overhead adjustments
  let estimated_size := estimated_size * ORGANIC_FACTORS.vm_swap_overhead
  let estimated_size :=
    if has_snapshots then estimated_size * ORGANIC_FACTORS.snapshot_overhead
    else estimated_size
  let notes_parts :=
    if has_snapshots then notes_parts ++ [NotePart.snapshotConsolidation]
    else notes_parts
  -- Final values
  let estimated_gb := round2 estimated_size
  let logical_gb := round2 logical_gb
  let change_pct :=
    if used_gb > 0 then round1 ((estimated_gb - used_gb) / used_gb * 100) else 0
  ⟨logical_gb, estimated_gb, change_pct, notes_parts⟩

/-- The `notes` field of `VMInfo` as set by `get_vm_storage_info`:
either the notes of `calculate_estimate`, or one of the two fixed
strings "Not on vSAN" and "Not on vSAN cluster". -/
inductive VMNotes where
  | fromEstimate (parts : List NotePart)
  | notOnVSAN
  | notOnVSANCluster
deriving DecidableEq, Repr

/-- The estimation branch of `get_vm_storage_info` (source lines 322-338):
given the used size, snapshot flag and the result of looking the VM
cluster up in `vsan_configs`, produce
`(logical_gb, estimated_gb, change_pct, notes)`. -/
def vm_estimate_fields (used_gb : ℚ) (has_snapshots : Bool)
    (lookup : Option VSANConfig) : ℚ × ℚ × ℚ × VMNotes :=
  match lookup with
  | some config =>
      if config.is_vsan then
        let r := calculate_estimate used_gb has_snapshots config
        (r.logical_gb, r.estimated_gb, r.change_pct, VMNotes.fromEstimate r.notes)
      else (used_gb, used_gb, 0, VMNotes.notOnVSAN)
  | none => (used_gb, used_gb, 0, VMNotes.notOnVSANCluster)

/-- The cluster lookup `vm_info.cluster in vsan_configs` plus indexing,
over an association list of cluster names. -/
def lookupConfig (vsan_configs : List (String × VSANConfig)) (cluster : String) :
    Option VSANConfig :=
  (vsan_configs.find? (fun p => p.1 = cluster)).map (fun p => p.2)

/-- The local variable `logical_size` of `calculate_estimate` at the end of
Step 3 (source lines 364-370), before the output rounding. -/
def logical_size (used_gb : ℚ) (config : VSANConfig) : ℚ :=
  if !config.trim_unmap_enabled then
    used_gb / config.raid_overhead * ORGANIC_FACTORS.trim_unmap_not_enabled
  else used_gb / config.raid_overhead

/-- The local variable `estimated_size` of `calculate_estimate` at the end of
Step 5 (source lines 377-406), before the output rounding: the logical size
times each expansion/deflation factor that fires. -/
def estimated_size (used_gb : ℚ) (has_snapshots : Bool) (config : VSANConfig) : ℚ :=
  logical_size used_gb config
    * (if config.dedup_enabled then dedupExpansionFactor config else 1)
    * (if config.compression_enabled then compressionExpansionFactor config else 1)
    * ORGANIC_FACTORS.vm_swap_overhead
    * (if has_snapshots then ORGANIC_FACTORS.snapshot_overhead else 1)

/-- Closed form of `calculate_estimate`: each output field in terms of
`logical_size` and `estimated_size`, and the note list as one append chain. -/
theorem calculate_estimate_eq (u : ℚ) (s : Bool) (c : VSANConfig) :
    calculate_estimate u s c =
      { logical_gb := round2 (logical_size u c)
        estimated_gb := round2 (estimated_size u s c)
        change_pct :=
          if u > 0 then round1 ((round2 (estimated_size u s c) - u) / u * 100)
          else 0
        notes :=
          [NotePart.primaryData c.raid_overhead]
            ++ (if c.trim_unmap_enabled then [] else [NotePart.trimUnmapAdj])
            ++ (if c.dedup_enabled then
                  [NotePart.dedupExpand (dedupExpansionFactor c)] else [])
            ++ (if c.compression_enabled then
                  [NotePart.compressExpand (compressionExpansionFactor c)] else [])
            ++ (if s then [NotePart.snapshotConsolidation] else []) } := by
  rcases c with ⟨nm, isv, isvx, rp, ro, de, ce, dr, cr, te, p1, p2, p3, p4⟩
  simp only [calculate_estimate, logical_size, estimated_size]
  cases te <;> cases de <;> cases ce <;> cases s <;>
    simp [EstimateResult.mk.injEq, mul_one]

theorem rat_floor_eq_intFloor (q : ℚ) : (Rat.floor q : ℤ) = ⌊q⌋ := by
  rw [Rat.floor_def', Rat.floor_def]

theorem roundHalfEven_le_floor_add_one (q : ℚ) : roundHalfEven q ≤ Rat.floor q + 1 := by
  simp only [roundHalfEven]
  split_ifs <;> omega

theorem floor_le_roundHalfEven (q : ℚ) : Rat.floor q ≤ roundHalfEven q := by
  simp only [roundHalfEven]
  split_ifs <;> omega

theorem roundHalfEven_mono {q r : ℚ} (h : q ≤ r) :
    roundHalfEven q ≤ roundHalfEven r := by
  have hf : Rat.floor q ≤ Rat.floor r := by
    rw [rat_floor_eq_intFloor, rat_floor_eq_intFloor]
    exact Int.floor_mono h
  rcases lt_or_eq_of_le hf with hlt | heq
  · have h1 := roundHalfEven_le_floor_add_one q
    have h2 := floor_le_roundHalfEven r
    omega
  · simp only [roundHalfEven, ← heq]
    have hfrac : q - (Rat.floor q : ℚ) ≤ r - (Rat.floor q : ℚ) := by linarith
    split_ifs <;> first | omega | linarith

theorem round2_mono {q r : ℚ} (h : q ≤ r) : round2 q ≤ round2 r := by
  have h1 : q * 100 ≤ r * 100 := by linarith
  have h2 := roundHalfEven_mono h1
  simp only [round2]
  have h3 : (roundHalfEven (q * 100) : ℚ) ≤ (roundHalfEven (r * 100) : ℚ) := by
    exact_mod_cast h2
  linarith

/-- Claim C1: for every used size and policy, the logical size output is the
used size divided by `raid_overhead`, then, exactly when TRIM/UNMAP is not
enabled, multiplied by the fixed deflation constant 0.85 (which is below
1.0); no other step changes it before the output rounding. -/
theorem c1_logical_size_resolver (u : ℚ) (s : Bool) (c : VSANConfig) :
    (calculate_estimate u s c).logical_gb =
      round2 (if c.trim_unmap_enabled then u / c.raid_overhead
              else u / c.raid_overhead * ORGANIC_FACTORS.trim_unmap_not_enabled)
      ∧ ORGANIC_FACTORS.trim_unmap_not_enabled = 85/100
      ∧ ORGANIC_FACTORS.trim_unmap_not_enabled < 1 := by
  refine ⟨?_, rfl, by norm_num [ORGANIC_FACTORS.trim_unmap_not_enabled]⟩
  rw [calculate_estimate_eq]
  simp only [logical_size]
  cases c.trim_unmap_enabled <;> simp

/-- The identity policy of the round-trip property: overhead 1, both space
efficiencies off with ratio 1, TRIM/UNMAP (reclaim) enabled. -/
def neutralPolicy : VSANConfig :=
  { cluster_name := "neutral", is_vsan := true, raid_overhead := 1 }

/-- Claim C2 counterexample: under the neutral policy the estimated target
of reported size 100 is 95, not 100 — the unconditional swap-file deflation
breaks the round trip by far more than the 0.01 output rounding step. -/
theorem c2_counterexample :
    (calculate_estimate 100 false neutralPolicy).logical_gb = 100 ∧
    (calculate_estimate 100 false neutralPolicy).estimated_gb = 95 ∧
    ¬ |(calculate_estimate 100 false neutralPolicy).estimated_gb - 100| ≤ 1/100 := by
  norm_num [calculate_estimate_eq, neutralPolicy, estimated_size, logical_size,
    ORGANIC_FACTORS.vm_swap_overhead, ORGANIC_FACTORS.trim_unmap_not_enabled,
    round2, roundHalfEven, Rat.floor_def', abs_sub_lt_iff]

/-- Claim C2 as amended: under the neutral policy the logical size round
trips to the reported size, but the estimated target is the reported size
times the unconditional swap deflation 0.95, so the full round trip fails
by five percent. -/
theorem c2_amended_neutral_round_trip (u : ℚ) :
    (calculate_estimate u false neutralPolicy).logical_gb = round2 u ∧
    (calculate_estimate u false neutralPolicy).estimated_gb =
      round2 (u * ORGANIC_FACTORS.vm_swap_overhead) := by
  rw [calculate_estimate_eq]
  constructor
  · simp [logical_size, neutralPolicy]
  · simp [estimated_size, logical_size, neutralPolicy]

/-- A policy whose values lie outside the valid domain of the spec:
`raid_overhead` below 1.0 and non-positive efficiency ratios. -/
def subUnityRaidPolicy : VSANConfig :=
  { cluster_name := "bad", is_vsan := true, raid_overhead := 1/2,
    dedup_ratio := -1, compression_ratio := 0 }

/-- Claim C3 counterexample: with `raid_overhead = 0.5 < 1.0` the code does
not fail: it returns the numeric result 200 for used size 100 (and estimate
190), so no InvalidPolicy condition exists. -/
theorem c3_counterexample :
    subUnityRaidPolicy.raid_overhead < 1 ∧
    (calculate_estimate 100 false subUnityRaidPolicy).logical_gb = 200 ∧
    (calculate_estimate 100 false subUnityRaidPolicy).estimated_gb = 190 := by
  norm_num [calculate_estimate_eq, subUnityRaidPolicy, estimated_size, logical_size,
    dedupExpansionFactor, compressionExpansionFactor,
    ORGANIC_FACTORS.vm_swap_overhead, ORGANIC_FACTORS.trim_unmap_not_enabled,
    round2, roundHalfEven, Rat.floor_def']

/-- Claim C3 as amended: the code performs no policy validation. A
`raid_overhead` strictly between 0 and 1 is used as-is: the resolver
returns the numeric value `used / raid_overhead` (rounded), strictly above
the used size — neither a failure nor a clamp. A ratio at or below 0 is
silently replaced by the heuristic default inside the expansion branch,
again with no failure. -/
theorem c3_amended_no_validation (u : ℚ) (s : Bool) (c : VSANConfig) :
    (0 < c.raid_overhead → c.raid_overhead < 1 → 0 < u →
      c.trim_unmap_enabled = true →
      (calculate_estimate u s c).logical_gb = round2 (u / c.raid_overhead) ∧
      u < logical_size u c) ∧
    (c.dedup_ratio ≤ 0 →
      dedupExpansionFactor c = ORGANIC_FACTORS.dedup_expansion_medium) ∧
    (c.compression_ratio ≤ 0 →
      compressionExpansionFactor c = ORGANIC_FACTORS.compression_expansion) := by
  refine ⟨fun h0 h1 hu ht => ⟨?_, ?_⟩, fun hd => ?_, fun hc => ?_⟩
  · rw [calculate_estimate_eq]
    simp [logical_size, ht]
  · simp only [logical_size, ht, Bool.not_true, Bool.false_eq_true, if_false]
    calc u = u / 1 := by ring
    _ < u / c.raid_overhead := by
        exact div_lt_div_of_pos_left hu h0 h1
  · have h1 : ¬ (c.dedup_ratio > 1) := by
      simp only [gt_iff_lt, not_lt]
      linarith
    simp [dedupExpansionFactor, h1]
  · have h1 : ¬ (c.compression_ratio > 1) := by
      simp only [gt_iff_lt, not_lt]
      linarith
    simp [compressionExpansionFactor, h1]

/-- Claim C3 amended, witnessed at the concrete invalid policy
`subUnityRaidPolicy` and used size 100. -/
theorem c3_amended_witness :
    ((0:ℚ) < subUnityRaidPolicy.raid_overhead ∧
     subUnityRaidPolicy.raid_overhead < 1 ∧ (0:ℚ) < 100 ∧
     subUnityRaidPolicy.trim_unmap_enabled = true) ∧
    ((calculate_estimate 100 false subUnityRaidPolicy).logical_gb =
       round2 (100 / subUnityRaidPolicy.raid_overhead) ∧
     (100:ℚ) < logical_size 100 subUnityRaidPolicy) ∧
    subUnityRaidPolicy.dedup_ratio ≤ 0 ∧
    dedupExpansionFactor subUnityRaidPolicy = ORGANIC_FACTORS.dedup_expansion_medium ∧
    subUnityRaidPolicy.compression_ratio ≤ 0 ∧
    compressionExpansionFactor subUnityRaidPolicy = ORGANIC_FACTORS.compression_expansion :=
  ⟨⟨by norm_num [subUnityRaidPolicy], by norm_num [subUnityRaidPolicy],
    by norm_num, rfl⟩,
   (c3_amended_no_validation 100 false subUnityRaidPolicy).1
     (by norm_num [subUnityRaidPolicy]) (by norm_num [subUnityRaidPolicy])
     (by norm_num) rfl,
   by norm_num [subUnityRaidPolicy],
   (c3_amended_no_validation 100 false subUnityRaidPolicy).2.1
     (by norm_num [subUnityRaidPolicy]),
   by norm_num [subUnityRaidPolicy],
   (c3_amended_no_validation 100 false subUnityRaidPolicy).2.2
     (by norm_num [subUnityRaidPolicy])⟩

/-- A policy with deduplication disabled yet a measured dedup ratio above
1.0 on record. -/
def disabledDedupHighRatioPolicy : VSANConfig :=
  { cluster_name := "dd", is_vsan := true, raid_overhead := 1, dedup_ratio := 2 }

/-- Claim C4 counterexample: with deduplication disabled but
`dedup_ratio = 2 > 1`, no re-expansion fires: the estimate of used size 100
is 95, not the 190 that multiplying by `dedup_ratio * compression_ratio`
would give — the expansion is gated on the enabled flag, not on the ratio. -/
theorem c4_counterexample :
    1 < disabledDedupHighRatioPolicy.dedup_ratio ∧
    disabledDedupHighRatioPolicy.dedup_enabled = false ∧
    (calculate_estimate 100 false disabledDedupHighRatioPolicy).estimated_gb = 95 ∧
    (calculate_estimate 100 false disabledDedupHighRatioPolicy).estimated_gb ≠
      round2 ((calculate_estimate 100 false disabledDedupHighRatioPolicy).logical_gb
        * (disabledDedupHighRatioPolicy.dedup_ratio
            * disabledDedupHighRatioPolicy.compression_ratio)
        * ORGANIC_FACTORS.vm_swap_overhead) := by
  norm_num [calculate_estimate_eq, disabledDedupHighRatioPolicy, estimated_size,
    logical_size, dedupExpansionFactor, compressionExpansionFactor,
    ORGANIC_FACTORS.vm_swap_overhead, round2, roundHalfEven, Rat.floor_def']

/-- Claim C4 as amended: the re-expansion step is gated on the
`dedup_enabled` and `compression_enabled` flags, not on the ratios: each
enabled effect contributes its expansion factor (measured ratio when above
1.0, else the heuristic default) and each disabled effect contributes
nothing, for every used size and policy. -/
theorem c4_amended_expansion_gated_on_flags (u : ℚ) (s : Bool) (c : VSANConfig) :
    (calculate_estimate u s c).estimated_gb =
      round2 (logical_size u c
        * (if c.dedup_enabled then dedupExpansionFactor c else 1)
        * (if c.compression_enabled then compressionExpansionFactor c else 1)
        * ORGANIC_FACTORS.vm_swap_overhead
        * (if s then ORGANIC_FACTORS.snapshot_overhead else 1)) := by
  rw [calculate_estimate_eq]
  simp [estimated_size]

/-- A policy with both space efficiencies enabled and measured ratios
above 1.0. -/
def measuredRatioPolicy : VSANConfig :=
  { cluster_name := "mr", is_vsan := true, raid_overhead := 2,
    dedup_enabled := true, compression_enabled := true,
    dedup_ratio := 2, compression_ratio := 13/10 }

/-- Claim C5: when deduplication (respectively compression) is enabled,
the expansion factor entering the estimate is the measured ratio when it
exceeds 1.0 and otherwise the fixed heuristic default — 1.4 for
deduplication, 1.25 for compression. -/
theorem c5_measured_ratio_precedence (u : ℚ) (s : Bool) (c : VSANConfig) :
    (c.dedup_enabled = true → 1 < c.dedup_ratio →
      (calculate_estimate u s c).estimated_gb =
        round2 (logical_size u c * c.dedup_ratio
          * (if c.compression_enabled then compressionExpansionFactor c else 1)
          * ORGANIC_FACTORS.vm_swap_overhead
          * (if s then ORGANIC_FACTORS.snapshot_overhead else 1))) ∧
    (c.dedup_enabled = true → c.dedup_ratio ≤ 1 →
      (calculate_estimate u s c).estimated_gb =
        round2 (logical_size u c * ORGANIC_FACTORS.dedup_expansion_medium
          * (if c.compression_enabled then compressionExpansionFactor c else 1)
          * ORGANIC_FACTORS.vm_swap_overhead
          * (if s then ORGANIC_FACTORS.snapshot_overhead else 1))) ∧
    (c.compression_enabled = true → 1 < c.compression_ratio →
      (calculate_estimate u s c).estimated_gb =
        round2 (logical_size u c
          * (if c.dedup_enabled then dedupExpansionFactor c else 1)
          * c.compression_ratio
          * ORGANIC_FACTORS.vm_swap_overhead
          * (if s then ORGANIC_FACTORS.snapshot_overhead else 1))) ∧
    (c.compression_enabled = true → c.compression_ratio ≤ 1 →
      (calculate_estimate u s c).estimated_gb =
        round2 (logical_size u c
          * (if c.dedup_enabled then dedupExpansionFactor c else 1)
          * ORGANIC_FACTORS.compression_expansion
          * ORGANIC_FACTORS.vm_swap_overhead
          * (if s then ORGANIC_FACTORS.snapshot_overhead else 1))) ∧
    ORGANIC_FACTORS.dedup_expansion_medium = 14/10 ∧
    ORGANIC_FACTORS.compression_expansion = 125/100 := by
  refine ⟨fun he hr => ?_, fun he hr => ?_, fun he hr => ?_, fun he hr => ?_,
    rfl, rfl⟩
  · rw [calculate_estimate_eq]
    simp [estimated_size, dedupExpansionFactor, he, hr]
  · rw [calculate_estimate_eq]
    have h1 : ¬ (c.dedup_ratio > 1) := by
      simp only [gt_iff_lt, not_lt]
      exact hr
    simp [estimated_size, dedupExpansionFactor, he, h1]
  · rw [calculate_estimate_eq]
    simp [estimated_size, compressionExpansionFactor, he, hr]
  · rw [calculate_estimate_eq]
    have h1 : ¬ (c.compression_ratio > 1) := by
      simp only [gt_iff_lt, not_lt]
      exact hr
    simp [estimated_size, compressionExpansionFactor, he, h1]

/-- Claim C5, witnessed at `measuredRatioPolicy` (both ratios measured and
above 1.0) and used size 100. -/
theorem c5_witness :
    measuredRatioPolicy.dedup_enabled = true ∧
    1 < measuredRatioPolicy.dedup_ratio ∧
    (calculate_estimate 100 false measuredRatioPolicy).estimated_gb =
      round2 (logical_size 100 measuredRatioPolicy * measuredRatioPolicy.dedup_ratio
        * (if measuredRatioPolicy.compression_enabled then
             compressionExpansionFactor measuredRatioPolicy else 1)
        * ORGANIC_FACTORS.vm_swap_overhead
        * (if false then ORGANIC_FACTORS.snapshot_overhead else 1)) :=
  ⟨rfl, by norm_num [measuredRatioPolicy],
   (c5_measured_ratio_precedence 100 false measuredRatioPolicy).1 rfl
     (by norm_num [measuredRatioPolicy])⟩

/-- Claim C6: the swap-file deflation factor 0.95 multiplies every
estimate unconditionally, and the snapshot-consolidation factor 0.90
multiplies the post-re-expansion value exactly when snapshots exist; the
snapshot note is appended after all expansion notes. -/
theorem c6_swap_unconditional_snapshot_conditional (u : ℚ) (s : Bool) (c : VSANConfig) :
    (calculate_estimate u s c).estimated_gb =
      round2 ((logical_size u c
          * (if c.dedup_enabled then dedupExpansionFactor c else 1)
          * (if c.compression_enabled then compressionExpansionFactor c else 1))
        * ORGANIC_FACTORS.vm_swap_overhead
        * (if s then ORGANIC_FACTORS.snapshot_overhead else 1)) ∧
    (calculate_estimate u s c).notes =
      (calculate_estimate u false c).notes
        ++ (if s then [NotePart.snapshotConsolidation] else []) ∧
    ORGANIC_FACTORS.vm_swap_overhead = 95/100 ∧
    ORGANIC_FACTORS.snapshot_overhead = 90/100 := by
  refine ⟨?_, ?_, rfl, rfl⟩
  · rw [calculate_estimate_eq]
    simp [estimated_size]
  · simp only [calculate_estimate_eq]
    cases s <;> simp [List.append_assoc]

/-- Claim C7: the percentage delta is computed against the original
reported used size — the rounded estimate minus the used size, divided by
the used size, times 100 — and is 0 when the used size is not positive. -/
theorem c7_delta_pct_against_reported (u : ℚ) (s : Bool) (c : VSANConfig) :
    (calculate_estimate u s c).change_pct =
      if u > 0 then
        round1 (((calculate_estimate u s c).estimated_gb - u) / u * 100)
      else 0 := by
  simp only [calculate_estimate_eq]

/-- A policy with every adjustment active: erasure-coding overhead,
dedup and compression with measured ratios, TRIM/UNMAP off. -/
def fullFeaturePolicy : VSANConfig :=
  { cluster_name := "full", is_vsan := true, raid_overhead := 133/100,
    dedup_enabled := true, compression_enabled := true,
    dedup_ratio := 3/2, compression_ratio := 13/10,
    trim_unmap_enabled := false }

/-- Claim C8: a reported used size of 0 yields logical size exactly 0 (and
estimate and delta 0), for every snapshot flag and every policy whose
RAID overhead is non-zero (a zero overhead would raise ZeroDivisionError
in the source language, and every overhead the program constructs is at
least 1). -/
theorem c8_zero_reported_size (s : Bool) (c : VSANConfig)
    (_h : c.raid_overhead ≠ 0) :
    (calculate_estimate 0 s c).logical_gb = 0 ∧
    (calculate_estimate 0 s c).estimated_gb = 0 ∧
    (calculate_estimate 0 s c).change_pct = 0 := by
  have hl : logical_size 0 c = 0 := by simp [logical_size]
  have he : estimated_size 0 s c = 0 := by simp [estimated_size, hl]
  have hr : round2 0 = 0 := by norm_num [round2, roundHalfEven, Rat.floor_def']
  simp only [calculate_estimate_eq, hl, he, hr]
  norm_num

/-- Claim C8, witnessed at the all-adjustments-active policy with
snapshots present. -/
theorem c8_zero_reported_size_witness :
    fullFeaturePolicy.raid_overhead ≠ 0 ∧
    (calculate_estimate 0 true fullFeaturePolicy).logical_gb = 0 ∧
    (calculate_estimate 0 true fullFeaturePolicy).estimated_gb = 0 ∧
    (calculate_estimate 0 true fullFeaturePolicy).change_pct = 0 :=
  ⟨by norm_num [fullFeaturePolicy],
   c8_zero_reported_size true fullFeaturePolicy (by norm_num [fullFeaturePolicy])⟩

/-- A mirrored policy with overhead 3, all else default. -/
def raidThreePolicy : VSANConfig :=
  { cluster_name := "c9", is_vsan := true, raid_overhead := 3 }

/-- The same policy with overhead raised slightly to 3.01. -/
def raidSlightlyHigherPolicy : VSANConfig :=
  { cluster_name := "c9", is_vsan := true, raid_overhead := 301/100 }

/-- Claim C9 counterexample: raising the RAID overhead from 3 to 3.01 with
all else fixed does not strictly decrease the logical-size output — at
used size 1 both round to 0.33, and at used size 0 both are 0. -/
theorem c9_counterexample :
    raidThreePolicy.raid_overhead < raidSlightlyHigherPolicy.raid_overhead ∧
    (calculate_estimate 1 false raidThreePolicy).logical_gb =
      (calculate_estimate 1 false raidSlightlyHigherPolicy).logical_gb ∧
    (calculate_estimate 0 false raidThreePolicy).logical_gb =
      (calculate_estimate 0 false raidSlightlyHigherPolicy).logical_gb := by
  norm_num [calculate_estimate_eq, raidThreePolicy, raidSlightlyHigherPolicy,
    logical_size, round2, roundHalfEven, Rat.floor_def']

/-- Claim C9 as amended: for a strictly positive used size, a strictly
larger RAID overhead (all else fixed) strictly decreases the logical size
before the output rounding, and weakly decreases the rounded
logical-size output. -/
theorem c9_amended_monotonicity (u : ℚ) (s : Bool) (c1 c2 : VSANConfig)
    (hu : 0 < u) (h0 : 0 < c1.raid_overhead)
    (hlt : c1.raid_overhead < c2.raid_overhead)
    (ht : c1.trim_unmap_enabled = c2.trim_unmap_enabled) :
    logical_size u c2 < logical_size u c1 ∧
    (calculate_estimate u s c2).logical_gb ≤ (calculate_estimate u s c1).logical_gb := by
  have hdiv : u / c2.raid_overhead < u / c1.raid_overhead :=
    div_lt_div_of_pos_left hu h0 hlt
  have hstrict : logical_size u c2 < logical_size u c1 := by
    simp only [logical_size, ← ht]
    cases c1.trim_unmap_enabled
    · have hpos : (0:ℚ) < ORGANIC_FACTORS.trim_unmap_not_enabled := by
        norm_num [ORGANIC_FACTORS.trim_unmap_not_enabled]
      simpa using mul_lt_mul_of_pos_right hdiv hpos
    · simpa using hdiv
  exact ⟨hstrict, by
    simp only [calculate_estimate_eq]
    exact round2_mono (le_of_lt hstrict)⟩

/-- Claim C9 amended, witnessed at used size 1 and overheads 3 and 3.01. -/
theorem c9_amended_witness :
    ((0:ℚ) < 1 ∧ (0:ℚ) < raidThreePolicy.raid_overhead ∧
     raidThreePolicy.raid_overhead < raidSlightlyHigherPolicy.raid_overhead ∧
     raidThreePolicy.trim_unmap_enabled = raidSlightlyHigherPolicy.trim_unmap_enabled) ∧
    logical_size 1 raidSlightlyHigherPolicy < logical_size 1 raidThreePolicy ∧
    (calculate_estimate 1 false raidSlightlyHigherPolicy).logical_gb ≤
      (calculate_estimate 1 false raidThreePolicy).logical_gb :=
  ⟨⟨by norm_num, by norm_num [raidThreePolicy],
    by norm_num [raidThreePolicy, raidSlightlyHigherPolicy], rfl⟩,
   c9_amended_monotonicity 1 false raidThreePolicy raidSlightlyHigherPolicy
     (by norm_num) (by norm_num [raidThreePolicy])
     (by norm_num [raidThreePolicy, raidSlightlyHigherPolicy]) rfl⟩

/-- Claim C10: a VM whose cluster is absent from the configuration map, or
present but not a vSAN cluster, gets the identity estimate — logical and
estimated size both equal the used size, delta percentage 0 — and a note
recording that it is not on vSAN. -/
theorem c10_non_vsan_identity (u : ℚ) (s : Bool) (lookup : Option VSANConfig) :
    (lookup = none →
      vm_estimate_fields u s lookup = (u, u, 0, VMNotes.notOnVSANCluster)) ∧
    (∀ c, lookup = some c → c.is_vsan = false →
      vm_estimate_fields u s lookup = (u, u, 0, VMNotes.notOnVSAN)) := by
  constructor
  · intro h
    subst h
    rfl
  · intro c hc hv
    subst hc
    simp [vm_estimate_fields, hv]

/-- A cluster configuration that is not vSAN (all detection defaults). -/
def nonVsanPolicy : VSANConfig := { cluster_name := "plain" }

/-- Claim C10, witnessed on the empty configuration map and on a concrete
non-vSAN cluster configuration. -/
theorem c10_non_vsan_identity_witness :
    vm_estimate_fields 7 false (lookupConfig [] "cluster-a") =
      (7, 7, 0, VMNotes.notOnVSANCluster) ∧
    nonVsanPolicy.is_vsan = false ∧
    vm_estimate_fields 7 false (some nonVsanPolicy) =
      (7, 7, 0, VMNotes.notOnVSAN) :=
  ⟨(c10_non_vsan_identity 7 false (lookupConfig [] "cluster-a")).1 rfl,
   rfl,
   (c10_non_vsan_identity 7 false (some nonVsanPolicy)).2 nonVsanPolicy rfl rfl⟩
